import Mathlib

/-!
Verification of the Box2D fork core (louis-langholtz variant) against its
natural-language specification.  The C++ sources are shallowly embedded:
scalar `RealNum` values are modelled as exact rationals, machine floats
whose NaN/infinity behavior matters are modelled by the `Flt` type, and
stateful code is modelled by explicit state passing.  Definitions follow
the C++ sources; where a needed piece of the repository is not among the
provided sources, the definition is marked `Modelled from the spec:`.
-/

namespace Box2D

/-- Two dimensional vector over exact rationals (embeds box2d::Vec2). -/
structure Vec2 where
  x : ℚ
  y : ℚ
deriving DecidableEq, Repr

instance : Add Vec2 := ⟨fun a b => ⟨a.x + b.x, a.y + b.y⟩⟩

instance : Sub Vec2 := ⟨fun a b => ⟨a.x - b.x, a.y - b.y⟩⟩

instance : Neg Vec2 := ⟨fun a => ⟨-a.x, -a.y⟩⟩

/-- Scalar multiplication of a vector (embeds Vec2 operator*). -/
def Vec2.scale (s : ℚ) (v : Vec2) : Vec2 := ⟨s * v.x, s * v.y⟩

/-- Dot product (embeds box2d::Dot). -/
def Vec2.dot (a b : Vec2) : ℚ := a.x * b.x + a.y * b.y

/-- Two dimensional cross product (embeds box2d::Cross for Vec2). -/
def Vec2.cross (a b : Vec2) : ℚ := a.x * b.y - a.y * b.x

/-- The zero vector (embeds Vec2_zero). -/
def Vec2.zero : Vec2 := ⟨0, 0⟩

/-- Positional data: linear world location of the center plus the angular
amount in radians (embeds box2d::Position). -/
structure Position where
  linear : Vec2
  angular : ℚ
deriving DecidableEq, Repr

instance : Add Position := ⟨fun a b => ⟨a.linear + b.linear, a.angular + b.angular⟩⟩

/-- Scalar multiplication of a position (embeds Position operator*). -/
def Position.scale (s : ℚ) (p : Position) : Position := ⟨Vec2.scale s p.linear, s * p.angular⟩

/-- Linear interpolation of two positions at fraction beta; embeds
GetPosition(pos0, pos1, beta) = pos0 * (1 - beta) + pos1 * beta
(ConveyorBelt.hpp line 1464). -/
def GetPosition (pos0 pos1 : Position) (beta : ℚ) : Position :=
  Position.scale (1 - beta) pos0 + Position.scale beta pos1

/-- Sweep of a body: center positions at time fractions alpha0 and 1, the
local center of mass, and alpha0 (embeds class Sweep, ConveyorBelt.hpp
lines 874-921). -/
structure Sweep where
  pos0 : Position
  pos1 : Position
  localCenter : Vec2
  alpha0 : ℚ
deriving DecidableEq, Repr

/-- Embeds Sweep::Advance0 (ConveyorBelt.hpp lines 1500-1510): moves pos0
to the interpolation of (pos0, pos1) at the normalized fraction
(alpha - alpha0) / (1 - alpha0) and records the new alpha0. -/
def Sweep.advance0 (s : Sweep) (alpha : ℚ) : Sweep :=
  let beta := (alpha - s.alpha0) / (1 - s.alpha0)
  { s with pos0 := GetPosition s.pos0 s.pos1 beta, alpha0 := alpha }

/-- World construction definition defaults (embeds World::Def of World.hpp:
gravity = EarthlyGravity = (0, -9.8); angularSlop = Pi * 2 / 180;
maxVertexRadius = 255).  The float constant Pi is kept as a parameter. -/
structure WorldDef where
  gravity : Vec2
  angularSlop : ℚ
  maxVertexRadius : ℚ
deriving DecidableEq, Repr

/-- Default-constructed World::Def (World.hpp lines 88-101), with the float
Pi constant abstracted as the parameter pi. -/
def defaultWorldDef (pi : ℚ) : WorldDef :=
  { gravity := ⟨0, -(49/5)⟩
    angularSlop := pi * 2 / 180
    maxVertexRadius := 255 }

/-- Step configuration defaults (embeds class StepConf of StepConf.hpp,
lines 64-121); the float Pi constant is abstracted as a parameter of
`defaultStepConf`.  Only fields with in-source defaults are modelled. -/
structure StepConf where
  minStillTimeToSleep : ℚ
  regResolutionRate : ℚ
  toiResolutionRate : ℚ
  velocityThreshold : ℚ
  maxTranslation : ℚ
  maxRotation : ℚ
  regVelocityIterations : ℕ
  regPositionIterations : ℕ
  toiVelocityIterations : ℕ
  toiPositionIterations : ℕ
  maxSubSteps : ℕ
  doWarmStart : Bool
  doToi : Bool
deriving DecidableEq, Repr

/-- Default-constructed StepConf (StepConf.hpp lines 64-121). -/
def defaultStepConf (pi : ℚ) : StepConf :=
  { minStillTimeToSleep := 1/2
    regResolutionRate := 2/10
    toiResolutionRate := 75/100
    velocityThreshold := 8/10
    maxTranslation := 4
    maxRotation := pi / 2
    regVelocityIterations := 8
    regPositionIterations := 3
    toiVelocityIterations := 8
    toiPositionIterations := 20
    maxSubSteps := 48
    doWarmStart := true
    doToi := true }

end Box2D

namespace Box2D.CM

/-! Contact-manager model: bodies, fixtures, contacts and the operations
ContactManager::Add (ContactManager.cpp lines 187-243) and
ContactManager::Collide (lines 89-165), together with
Body::ShouldCollide (Body.cpp lines 448-469), the default contact filter
(WorldCallbacks ContactFilter::ShouldCollide) and AABB overlap testing
(AABB.hpp lines 135-141).  Bodies and fixtures are referred to by index
into the state lists; the per-body intrusive contact-edge lists that the
C++ maintains (ContactManager::Add(Contact*) lines 245-286 and Remove
lines 29-73 keep them holding exactly the contacts referencing the body)
are modelled as the derived function `contactEdges`. -/

/-- Body type (embeds BodyType). -/
inductive BodyType
  | Static
  | Kinematic
  | Dynamic
deriving DecidableEq, Repr

/-- A joint edge of a body: the index of the other body and the
collideConnected flag of the joint. -/
structure JointEdge where
  other : ℕ
  collideConnected : Bool
deriving DecidableEq, Repr

/-- Body model: its type, awake flag and joint edges.  Per Body::GetFlags
(Body.cpp lines 36-66) the acceleration flag is set exactly for Dynamic
bodies and the velocity flag exactly for Dynamic and Kinematic bodies. -/
structure BodyB where
  type : BodyType
  awake : Bool
  joints : List JointEdge
deriving DecidableEq, Repr

/-- IsAccelerable: the acceleration flag, set only for Dynamic bodies. -/
def BodyB.isAccelerable (b : BodyB) : Bool := decide (b.type = BodyType.Dynamic)

/-- IsSpeedable: the velocity flag, set for Dynamic and Kinematic bodies. -/
def BodyB.isSpeedable (b : BodyB) : Bool := decide (b.type ≠ BodyType.Static)

/-- Embeds Body::ShouldCollide (Body.cpp lines 448-469): at least one body
must be accelerable and no joint to the other body may forbid collision. -/
def BodyB.shouldCollide (self : BodyB) (otherId : ℕ) (other : BodyB) : Bool :=
  if !self.isAccelerable && !other.isAccelerable then false
  else if self.joints.any fun jn => decide (jn.other = otherId) && !jn.collideConnected then false
  else true

/-- The collidable test of ContactManager::Collide (lines 127-131):
is-awake and is-speedable. -/
def BodyB.isCollidable (b : BodyB) : Bool := b.awake && b.isSpeedable

/-- Collision filter data of a fixture. -/
structure Filter where
  categoryBits : ℕ
  maskBits : ℕ
  groupIndex : ℤ
deriving DecidableEq, Repr

/-- Embeds the default ContactFilter::ShouldCollide (WorldCallbacks). -/
def filterShouldCollide (a b : Filter) : Bool :=
  if a.groupIndex = b.groupIndex ∧ a.groupIndex ≠ 0 then decide (a.groupIndex > 0)
  else decide (Nat.land a.maskBits b.categoryBits ≠ 0) && decide (Nat.land a.categoryBits b.maskBits ≠ 0)

/-- Axis-aligned bounding box (embeds class AABB, AABB.hpp). -/
structure AABB where
  lowerBound : Vec2
  upperBound : Vec2
deriving DecidableEq, Repr

/-- Embeds TestOverlap(AABB, AABB) (AABB.hpp lines 135-141). -/
def testOverlap (a b : AABB) : Bool :=
  let d1 := b.lowerBound - a.upperBound
  let d2 := a.lowerBound - b.upperBound
  decide (d1.x ≤ 0) && decide (d1.y ≤ 0) && decide (d2.x ≤ 0) && decide (d2.y ≤ 0)

/-- Contact model: the two fixture indices with their child indices, and
the flags touched by Collide.  Contact::Create may swap which fixture is
A and which is B according to the shape-type table; the unordered pair of
(fixture, child) values is unaffected by that swap. -/
structure Contact where
  fixtureA : ℕ
  childIndexA : ℕ
  fixtureB : ℕ
  childIndexB : ℕ
  needsFiltering : Bool
  enabled : Bool
  touching : Bool
deriving DecidableEq, Repr

/-- Embeds IsFor (ContactManager.cpp lines 173-185): the contact is for
the given fixture/child-index pair in either ordering. -/
def isFor (c : Contact) (fixtureA indexA fixtureB indexB : ℕ) : Bool :=
  decide ((c.fixtureA = fixtureA ∧ c.fixtureB = fixtureB ∧
           c.childIndexA = indexA ∧ c.childIndexB = indexB) ∨
          (c.fixtureA = fixtureB ∧ c.fixtureB = fixtureA ∧
           c.childIndexA = indexB ∧ c.childIndexB = indexA))

/-- Fixture model: owning body index, filter data, sensor flag and the
fat AABB stored in the broad phase for each child proxy. -/
structure FixtureRec where
  body : ℕ
  filter : Filter
  sensor : Bool
  aabbs : List AABB
deriving DecidableEq, Repr

/-- Fixture used for out-of-range lookups. -/
def defaultFixture : FixtureRec := ⟨0, ⟨1, 65535, 0⟩, false, []⟩

/-- Body used for out-of-range lookups. -/
def defaultBody : BodyB := ⟨BodyType.Static, false, []⟩

/-- FixtureProxy as consumed by ContactManager::Add: a fixture index and a
child index. -/
structure FixtureProxy where
  fixture : ℕ
  childIndex : ℕ
deriving DecidableEq, Repr

/-- The world state seen by the contact manager.  `updateTouching` stands
for the manifold evaluation done by Contact::Update (whose collision code
is not among the provided sources): it yields the new touching flag of a
persisting contact. -/
structure State where
  contacts : List Contact
  fixtures : List FixtureRec
  bodies : List BodyB
  hasContactFilter : Bool
  updateTouching : ℕ → ℕ → ℕ → ℕ → Bool

/-- Looks up a fixture record by index. -/
def State.fixture (w : State) (f : ℕ) : FixtureRec := w.fixtures.getD f defaultFixture

/-- The body index owning the given fixture. -/
def State.bodyOf (w : State) (f : ℕ) : ℕ := (w.fixture f).body

/-- Looks up a body record by index. -/
def State.body (w : State) (b : ℕ) : BodyB := w.bodies.getD b defaultBody

/-- The broad-phase fat AABB of the given fixture child proxy. -/
def State.proxyAABB (w : State) (f i : ℕ) : AABB :=
  ((w.fixture f).aabbs).getD i ⟨⟨0, 0⟩, ⟨0, 0⟩⟩

/-- A contact edge as seen from a body: the contact plus the other body. -/
structure ContactEdge where
  contact : Contact
  other : ℕ
deriving DecidableEq, Repr

/-- The contact-edge list of a body (the intrusive m_contacts list of the
C++ Body, here derived: it holds exactly the live contacts one of whose
fixtures belongs to the body, with `other` the opposite body). -/
def State.contactEdges (w : State) (b : ℕ) : List ContactEdge :=
  w.contacts.filterMap fun c =>
    if w.bodyOf c.fixtureB = b then some ⟨c, w.bodyOf c.fixtureA⟩
    else if w.bodyOf c.fixtureA = b then some ⟨c, w.bodyOf c.fixtureB⟩
    else none

/-- Embeds Body::SetAwake for the wake-up step of contact creation. -/
def State.setAwake (w : State) (b : ℕ) : State :=
  { w with bodies := w.bodies.set b { w.body b with awake := true } }

/-- Embeds ContactManager::Add(proxyA, proxyB) (ContactManager.cpp lines
187-243) followed, on success, by ContactManager::Add(Contact*) (lines
245-286): reject same-body pairs, pairs that already have a contact
(scanning the contact edges of body B), pairs whose bodies should not
collide, and pairs denied by the user filter; otherwise create the
contact, wake the bodies when neither fixture is a sensor, and push the
contact onto the world contact list. -/
def addPair (w : State) (pA pB : FixtureProxy) : Bool × State :=
  let fixtureA := pA.fixture
  let fixtureB := pB.fixture
  let bodyA := w.bodyOf fixtureA
  let bodyB := w.bodyOf fixtureB
  if bodyA = bodyB then (false, w)
  else if (w.contactEdges bodyB).any (fun ce =>
      decide (ce.other = bodyA) && isFor ce.contact fixtureA pA.childIndex fixtureB pB.childIndex)
    then (false, w)
  else if !((w.body bodyB).shouldCollide bodyA (w.body bodyA)) then (false, w)
  else if w.hasContactFilter &&
      !(filterShouldCollide (w.fixture fixtureA).filter (w.fixture fixtureB).filter)
    then (false, w)
  else
    let c : Contact := ⟨fixtureA, pA.childIndex, fixtureB, pB.childIndex, false, false, false⟩
    let w1 := if !(w.fixture fixtureA).sensor && !(w.fixture fixtureB).sensor
              then (w.setAwake bodyA).setAwake bodyB else w
    (true, { w1 with contacts := c :: w1.contacts })

/-- The re-filtering step of ContactManager::Collide (lines 104-125): a
contact flagged for filtering is destroyed (none) if the bodies or the
user filter reject it, and unflagged otherwise. -/
def refilter (w : State) (c : Contact) : Option Contact :=
  if c.needsFiltering then
    if !((w.body (w.bodyOf c.fixtureB)).shouldCollide (w.bodyOf c.fixtureA)
        (w.body (w.bodyOf c.fixtureA))) then none
    else if w.hasContactFilter &&
        !(filterShouldCollide (w.fixture c.fixtureA).filter (w.fixture c.fixtureB).filter)
      then none
    else some { c with needsFiltering := false }
  else some c

/-- The per-contact step of ContactManager::Collide (lines 95-162): after
re-filtering, a contact of two bodies that are both not collidable is
kept unexamined; a contact whose broad-phase proxies no longer overlap is
destroyed; a persisting contact is enabled and updated. -/
def processContact (w : State) (c : Contact) : Option Contact :=
  match refilter w c with
  | none => none
  | some c1 =>
    if !(w.body (w.bodyOf c.fixtureA)).isCollidable &&
        !(w.body (w.bodyOf c.fixtureB)).isCollidable then some c1
    else if !(testOverlap (w.proxyAABB c.fixtureA c.childIndexA)
                          (w.proxyAABB c.fixtureB c.childIndexB)) then none
    else some { c1 with enabled := true,
                        touching := w.updateTouching c.fixtureA c.childIndexA
                                                    c.fixtureB c.childIndexB }

/-- Embeds ContactManager::Collide (ContactManager.cpp lines 89-165),
with the contact listener absent (a null m_contactListener). -/
def collide (w : State) : State :=
  { w with contacts := w.contacts.filterMap (processContact w) }

/-- No two contacts of the list are for the same unordered
(fixture, child-index) pair. -/
def pairwiseDistinct : List Contact → Bool
  | [] => true
  | c :: rest =>
    (rest.all fun c2 => !(isFor c c2.fixtureA c2.childIndexA c2.fixtureB c2.childIndexB)) &&
    pairwiseDistinct rest

/-- Concrete two-dynamic-body world already holding the contact
(fixture 0, child 0) vs (fixture 1, child 0). -/
def dupState : State :=
  { contacts := [⟨0, 0, 1, 0, false, false, false⟩]
    fixtures := [⟨0, ⟨1, 65535, 0⟩, false, []⟩, ⟨1, ⟨1, 65535, 0⟩, false, []⟩]
    bodies := [⟨BodyType.Dynamic, true, []⟩, ⟨BodyType.Dynamic, true, []⟩]
    hasContactFilter := false
    updateTouching := fun _ _ _ _ => false }

/-- Concrete world with one contact between a sleeping dynamic body and a
static body whose stored proxy AABBs do not overlap. -/
def sleepyState : State :=
  { contacts := [⟨0, 0, 1, 0, false, false, false⟩]
    fixtures := [⟨0, ⟨1, 65535, 0⟩, false, [⟨⟨0, 0⟩, ⟨1, 1⟩⟩]⟩,
                 ⟨1, ⟨1, 65535, 0⟩, false, [⟨⟨5, 5⟩, ⟨6, 6⟩⟩]⟩]
    bodies := [⟨BodyType.Dynamic, false, []⟩, ⟨BodyType.Static, true, []⟩]
    hasContactFilter := false
    updateTouching := fun _ _ _ _ => false }

/-- Concrete world with a kinematic body 0 and a static body 1, both
awake, with no contacts. -/
def kinStaticState : State :=
  { contacts := []
    fixtures := [⟨0, ⟨1, 65535, 0⟩, false, []⟩, ⟨1, ⟨1, 65535, 0⟩, false, []⟩]
    bodies := [⟨BodyType.Kinematic, true, []⟩, ⟨BodyType.Static, true, []⟩]
    hasContactFilter := false
    updateTouching := fun _ _ _ _ => false }

end Box2D.CM

namespace Box2D

/-! Additional math primitives shared by the body-operation and solver
models.  A UnitVec2 (cos, sin pair) is represented as a Vec2; the
UnitVec2-from-angle constructor is the only absent piece (cos and sin are
transcendental) and is supplied as an oracle function where needed. -/

/-- Embeds Rotate(Vec2, UnitVec2) (math header line 1201). -/
def Rotate (v u : Vec2) : Vec2 :=
  ⟨u.x * v.x - u.y * v.y, u.y * v.x + u.x * v.y⟩

/-- Transformation: translation plus rotation unit vector. -/
structure Transformation where
  p : Vec2
  q : Vec2
deriving DecidableEq, Repr

/-- Embeds Transform(Vec2, Transformation) (math header line 1235). -/
def Transform (v : Vec2) (t : Transformation) : Vec2 := Rotate v t.q + t.p

/-- Embeds GetRevPerpendicular (math header line 928): (x, y) to (-y, x). -/
def GetRevPerpendicular (v : Vec2) : Vec2 := ⟨-v.y, v.x⟩

/-- Linear and angular velocity of a body. -/
structure Velocity where
  linear : Vec2
  angular : ℚ
deriving DecidableEq, Repr

/-- Mass data: mass, center and polar moment of inertia. -/
structure MassData where
  mass : ℚ
  center : Vec2
  I : ℚ
deriving DecidableEq, Repr

end Box2D

namespace Box2D.BodyOps

/-! Body operation model for Body::SetType, Body::DestroyFixture,
Body::DestroyFixtures, Body::SetTransform and Body::CreateFixture
(Body.cpp).  The world is modelled with a single body plus the
world-level data these operations touch.  Broad-phase proxy bookkeeping
(CreateProxies, DestroyProxies, Synchronize, TouchProxies) lives outside
this model, as does the destruction listener.  Fixture mass data
(GetMassData of a fixture, whose shape-level code is not among the
provided sources) is supplied by the oracle field `fixtureMassData`, and
the UnitVec2-from-angle constructor by the oracle field `unitVec`. -/

/-- Float scalar for the validity comparisons of fixture creation, where
NaN and infinity behavior matters (RealNum is a float there). -/
inductive Flt
  | num (q : ℚ)
  | posInf
  | negInf
  | nan
deriving DecidableEq, Repr

/-- Float less-or-equal: false whenever NaN is involved. -/
def Flt.le : Flt → Flt → Bool
  | Flt.nan, _ => false
  | _, Flt.nan => false
  | Flt.negInf, _ => true
  | _, Flt.posInf => true
  | Flt.posInf, _ => false
  | _, Flt.negInf => false
  | Flt.num a, Flt.num b => decide (a ≤ b)

/-- Float less-than: false whenever NaN is involved. -/
def Flt.lt : Flt → Flt → Bool
  | Flt.nan, _ => false
  | _, Flt.nan => false
  | Flt.negInf, Flt.negInf => false
  | Flt.negInf, _ => true
  | _, Flt.negInf => false
  | Flt.posInf, _ => false
  | _, Flt.posInf => true
  | Flt.num a, Flt.num b => decide (a < b)

/-- Shape as seen by fixture creation: just its vertex radius. -/
structure Shape where
  vertexRadius : Flt
deriving DecidableEq, Repr

/-- Fixture definition (FixtureDef fields checked by IsValid). -/
structure FixtureDef where
  density : Flt
  friction : Flt
  restitution : Flt
  isSensor : Bool
deriving DecidableEq, Repr

/-- A created fixture: a model id, its shape and definition data. -/
structure Fixture where
  id : ℕ
  shape : Shape
  density : Flt
  friction : Flt
  restitution : Flt
  isSensor : Bool
deriving DecidableEq, Repr

/-- Embeds the anonymous-namespace IsValid(shape, world) of Body.cpp
lines 196-212: non-null shape with vertex radius inside
[GetMinVertexRadius, GetMaxVertexRadius]. -/
def shapeIsValid (shape : Option Shape) (minVR maxVR : Flt) : Bool :=
  match shape with
  | none => false
  | some s =>
    if !(Flt.le minVR s.vertexRadius) then false
    else if !(Flt.le s.vertexRadius maxVR) then false
    else true

/-- Embeds the anonymous-namespace IsValid(FixtureDef) of Body.cpp lines
214-233: density and friction at least zero and restitution strictly
between the infinities (which also rejects NaN). -/
def defIsValid (fd : FixtureDef) : Bool :=
  if !(Flt.le (Flt.num 0) fd.density) then false
  else if !(Flt.le (Flt.num 0) fd.friction) then false
  else if !(Flt.lt fd.restitution Flt.posInf) then false
  else if !(Flt.lt Flt.negInf fd.restitution) then false
  else true

/-- The body data touched by the modelled operations. -/
structure BodyState where
  type : Box2D.CM.BodyType
  awake : Bool
  fixedRotation : Bool
  location : Vec2
  angle : ℚ
  sweep : Sweep
  velocity : Velocity
  linearAcceleration : Vec2
  angularAcceleration : ℚ
  invMass : ℚ
  invI : ℚ
  fixtures : List Fixture
  massDataDirty : Bool

/-- World model for the body operations: lock flag, gravity, vertex
radius bounds, the body, the contacts attached to it, a counter for
fresh fixture ids, the new-fixture flag, and the two oracles. -/
structure WorldB where
  locked : Bool
  gravity : Vec2
  minVertexRadius : Flt
  maxVertexRadius : Flt
  body : BodyState
  contacts : List Box2D.CM.Contact
  nextFixtureId : ℕ
  newFixtures : Bool
  unitVec : ℚ → Vec2
  fixtureMassData : Fixture → MassData

/-- Embeds ComputeMassData(body) (Body.cpp lines 614-630): sums the mass
data of the fixtures with positive density. -/
def computeMassData (w : WorldB) : MassData :=
  w.body.fixtures.foldr
    (fun f acc =>
      if Flt.lt (Flt.num 0) f.density then
        let md := w.fixtureMassData f
        ⟨acc.mass + md.mass, acc.center + Vec2.scale md.mass md.center, acc.I + md.I⟩
      else acc)
    ⟨0, Vec2.zero, 0⟩

/-- Embeds Body::ResetMassData (Body.cpp lines 335-378). -/
def resetMassData (w : WorldB) : WorldB :=
  let b := w.body
  if b.type ≠ Box2D.CM.BodyType.Dynamic then
    { w with body := { b with
        invMass := 0
        invI := 0
        sweep := ⟨⟨b.location, b.angle⟩, ⟨b.location, b.angle⟩, Vec2.zero, 0⟩
        massDataDirty := false } }
  else
    let md := computeMassData w
    let mass := if 0 < md.mass then md.mass else 1
    let invMass := 1 / mass
    let localCenter := Vec2.scale invMass md.center
    let invI := if 0 < md.I ∧ b.fixedRotation = false
                then 1 / (md.I - mass * Vec2.dot localCenter localCenter)
                else 0
    let oldCenter := b.sweep.pos1.linear
    let newCenter := Transform localCenter ⟨b.location, w.unitVec b.angle⟩
    { w with body := { b with
        invMass := invMass
        invI := invI
        sweep := ⟨⟨newCenter, b.angle⟩, ⟨newCenter, b.angle⟩, localCenter, 0⟩
        velocity := ⟨b.velocity.linear +
            Vec2.scale b.velocity.angular (GetRevPerpendicular (newCenter - oldCenter)),
          b.velocity.angular⟩
        massDataDirty := false } }

/-- Embeds Body::SetType (Body.cpp lines 148-194): no-op while locked or
when the type is unchanged; otherwise retype, reset mass data, null the
velocity and advance the sweep for static, wake the body, reset the
accelerations (gravity for accelerable bodies) and destroy the attached
contacts.  Fixture proxy touching concerns only the broad phase. -/
def setType (w : WorldB) (t : Box2D.CM.BodyType) : WorldB :=
  if w.locked then w
  else if w.body.type = t then w
  else
    let w1 := resetMassData { w with body := { w.body with type := t } }
    let w2 := if t = Box2D.CM.BodyType.Static then
        { w1 with body := { w1.body with
            velocity := ⟨Vec2.zero, 0⟩
            sweep := { w1.body.sweep with pos0 := w1.body.sweep.pos1 } } }
      else w1
    let w3 := { w2 with body := { w2.body with
        awake := true
        linearAcceleration := if t = Box2D.CM.BodyType.Dynamic
                              then Vec2.zero + w.gravity else Vec2.zero
        angularAcceleration := 0 } }
    { w3 with contacts := [] }

/-- Embeds Body::DestroyFixture (Body.cpp lines 277-333): no-op while
locked; otherwise remove the fixture from the list, destroy the contacts
referencing it, mark mass data dirty and optionally reset it.  Proxy
destruction concerns only the broad phase. -/
def destroyFixture (w : WorldB) (fid : ℕ) (resetMass : Bool) : WorldB :=
  if w.locked then w
  else
    let w1 := { w with
      body := { w.body with
        fixtures := w.body.fixtures.eraseP fun f => decide (f.id = fid)
        massDataDirty := true }
      contacts := w.contacts.filter fun c =>
        !(decide (c.fixtureA = fid) || decide (c.fixtureB = fid)) }
    if resetMass then resetMassData w1 else w1

/-- Embeds Body::DestroyFixtures (Body.cpp lines 122-146): no-op while
locked; otherwise delete all fixtures and reset the mass data. -/
def destroyFixtures (w : WorldB) : WorldB :=
  if w.locked then w
  else resetMassData { w with body := { w.body with fixtures := [] } }

/-- Embeds Body::SetTransform (Body.cpp lines 480-495): no-op while
locked; otherwise set the transform and rebuild the sweep about the
transformed local center.  Fixture synchronization concerns only the
broad phase. -/
def setTransform (w : WorldB) (p : Vec2) (a : ℚ) : WorldB :=
  if w.locked then w
  else
    let lc := w.body.sweep.localCenter
    let c := Transform lc ⟨p, w.unitVec a⟩
    { w with body := { w.body with
        location := p
        angle := a
        sweep := ⟨⟨c, a⟩, ⟨c, a⟩, lc, 0⟩ } }

/-- Embeds Body::CreateFixture (Body.cpp lines 235-275): null on an
invalid shape or definition or while locked; otherwise allocate the
fixture, push it onto the fixture list, mark (and optionally reset) the
mass data when density is positive, and set the new-fixtures flag. -/
def createFixture (w : WorldB) (shape : Option Shape) (fd : FixtureDef)
    (resetMass : Bool) : Option Fixture × WorldB :=
  if !(shapeIsValid shape w.minVertexRadius w.maxVertexRadius) || !(defIsValid fd)
    then (none, w)
  else if w.locked then (none, w)
  else match shape with
  | none => (none, w)
  | some s =>
    let fixture : Fixture := ⟨w.nextFixtureId, s, fd.density, fd.friction,
                              fd.restitution, fd.isSensor⟩
    let w1 := { w with
      body := { w.body with fixtures := fixture :: w.body.fixtures }
      nextFixtureId := w.nextFixtureId + 1 }
    let w2 := if Flt.lt (Flt.num 0) fixture.density then
        let w1b := { w1 with body := { w1.body with massDataDirty := true } }
        if resetMass then resetMassData w1b else w1b
      else w1
    (some fixture, { w2 with newFixtures := true })

/-- Concrete locked world used as the C3 witness input. -/
def lockedWorld : WorldB :=
  { locked := true
    gravity := ⟨0, -(49/5)⟩
    minVertexRadius := Flt.num 0
    maxVertexRadius := Flt.num 255
    body := { type := Box2D.CM.BodyType.Dynamic
              awake := true
              fixedRotation := false
              location := ⟨1, 2⟩
              angle := 0
              sweep := ⟨⟨⟨1, 2⟩, 0⟩, ⟨⟨1, 2⟩, 0⟩, ⟨0, 0⟩, 0⟩
              velocity := ⟨⟨0, 0⟩, 0⟩
              linearAcceleration := ⟨0, 0⟩
              angularAcceleration := 0
              invMass := 1
              invI := 1
              fixtures := [⟨0, ⟨Flt.num 1⟩, Flt.num 1, Flt.num (1/5), Flt.num 0, false⟩]
              massDataDirty := false }
    contacts := []
    nextFixtureId := 1
    newFixtures := false
    unitVec := fun _ => ⟨1, 0⟩
    fixtureMassData := fun _ => ⟨4, ⟨0, 0⟩, 8/3⟩ }

/-- The same world unlocked, used as the C4 witness input. -/
def unlockedWorld : WorldB :=
  { lockedWorld with locked := false }

end Box2D.BodyOps

namespace Box2D.Mass

/-- Modelled from the spec: polygon ComputeMassData via signed-triangle
integrals from a reference point (the vertex average), with the polar
moment shifted by the parallel-axis term when the centroid is off the
origin (spec section 4.2); the shape-level mass code is not among the
provided sources.  The in-source unit test
(SeparationFinder.cpp, MassData.GetForZeroVertexRadiusRectangle) pins the
expected values for the 4 by 1 half-width rectangle at density 2.1,
which this definition reproduces. -/
def polygonMassData (density : ℚ) (vs : List Vec2) : MassData :=
  let n := vs.length
  let sum := vs.foldl (fun a v => a + v) Vec2.zero
  let s := Vec2.scale (1 / (n : ℚ)) sum
  let acc := (List.range n).foldl
    (fun (a : ℚ × Vec2 × ℚ) i =>
      let e1 := vs.getD i Vec2.zero - s
      let e2 := vs.getD ((i + 1) % n) Vec2.zero - s
      let d := Vec2.cross e1 e2
      let ta := d / 2
      let intx2 := e1.x * e1.x + e2.x * e1.x + e2.x * e2.x
      let inty2 := e1.y * e1.y + e2.y * e1.y + e2.y * e2.y
      (a.1 + ta, a.2.1 + Vec2.scale (ta / 3) (e1 + e2), a.2.2 + d / 12 * (intx2 + inty2)))
    (0, Vec2.zero, 0)
  let area := acc.1
  let centerRel := Vec2.scale (1 / area) acc.2.1
  let mass := density * area
  let center := s + centerRel
  ⟨mass, center,
   density * acc.2.2 + mass * (Vec2.dot center center - Vec2.dot centerRel centerRel)⟩

/-- The counter-clockwise vertices of the axis-aligned rectangle of
half-widths (hx, hy) centered at the origin, in PolygonShape SetAsBox
order. -/
def rectVertices (hx hy : ℚ) : List Vec2 :=
  [⟨-hx, -hy⟩, ⟨hx, -hy⟩, ⟨hx, hy⟩, ⟨-hx, hy⟩]

end Box2D.Mass

namespace Box2D.PC

/-! Position-constraint solver model for the two-overlapping-squares
scenario.  The declaration of SolvePositionConstraint and the
PositionConstraint data live in the provided sources (ContactSolver
header and PositionConstraint.hpp); its implementation does not, so the
solve is modelled from the spec (section 4.8): separation is computed
from the reference face normal and the clipped point adjusted for both
vertex radii, the correction is
clamp(resolutionRate * (separation + linearSlop), -maxLinearCorrection, 0),
and equal-and-opposite translations weighted by the inverse masses plus
angular corrections weighted by the inverse inertias are applied.  The
spec does not prescribe that later points see the corrections of earlier
points, so each point is solved against the input positions.  The
manifold fed to the model is the one the in-source unit test
(ContactSolver.cpp, SolvePosConstraintsForHorOverlappingMovesHorOnly1)
asserts for the two squares: faceA, local normal (1, 0), local point
(2, 0), and local points (-2, 2) and (-2, -2). -/

/-- Modelled from the spec: the default linear slop (about 0.005); the
Settings header holding the LinearSlop constant is not among the
provided sources. -/
def LinearSlop : ℚ := 1/200

/-- Per-body data of a position constraint (PositionConstraint.hpp
lines 34-51, without the island index). -/
structure BodyData where
  invMass : ℚ
  invI : ℚ
  localCenter : Vec2
deriving DecidableEq, Repr

/-- A faceA-manifold position constraint: reference face data local to
body A, manifold point local points on body B, and the two body data
with their vertex radii (PositionConstraint.hpp lines 29-73). -/
structure PositionConstraintM where
  localNormal : Vec2
  localPoint : Vec2
  points : List Vec2
  bodyA : BodyData
  radiusA : ℚ
  bodyB : BodyData
  radiusB : ℚ

/-- Solver configuration (ContactSolver header ConstraintSolverConf);
maxLinearCorrection none models the infinite value the unit test uses. -/
structure ConstraintSolverConfM where
  resolutionRate : ℚ
  linearSlop : ℚ
  maxLinearCorrection : Option ℚ
deriving DecidableEq, Repr

/-- The position solver solution (ContactSolver header lines 153-158). -/
structure PositionSolution where
  pos_a : Position
  pos_b : Position
  min_separation : ℚ
deriving DecidableEq, Repr

/-- Embeds GetTransformation(ctr, rot, local_ctr) (math header line
1452): translation ctr - Rotate(local_ctr, rot) with rotation rot, the
rotation unit vector being supplied by the oracle u. -/
def getTransformation (u : ℚ → Vec2) (pos : Position) (localCenter : Vec2) : Transformation :=
  ⟨pos.linear - Rotate localCenter (u pos.angular), u pos.angular⟩

/-- The correction clamp of the spec:
clamp(x, -maxLinearCorrection, 0), with an absent bound meaning no lower
clamp. -/
def clampC (x : ℚ) (maxCorr : Option ℚ) : ℚ :=
  match maxCorr with
  | none => min x 0
  | some m => min (max x (-m)) 0

/-- Modelled from the spec: SolvePositionConstraint (section 4.8) for a
faceA manifold.  Each point yields its separation from the reference
face and a correction impulse along the face normal distributed by
inverse mass and inverse inertia; moveA/moveB gate the respective
inverse masses; the minimum separation over the points is returned. -/
def solvePositionConstraint (u : ℚ → Vec2) (pc : PositionConstraintM)
    (positionA : Position) (moveA : Bool) (positionB : Position) (moveB : Bool)
    (conf : ConstraintSolverConfM) : PositionSolution :=
  let invMassA := if moveA then pc.bodyA.invMass else 0
  let invIA := if moveA then pc.bodyA.invI else 0
  let invMassB := if moveB then pc.bodyB.invMass else 0
  let invIB := if moveB then pc.bodyB.invI else 0
  let xfA := getTransformation u positionA pc.bodyA.localCenter
  let xfB := getTransformation u positionB pc.bodyB.localCenter
  let normal := Rotate pc.localNormal xfA.q
  let planePoint := Transform pc.localPoint xfA
  let step := fun (acc : Position × Position × Option ℚ) (lp : Vec2) =>
    let clipPoint := Transform lp xfB
    let sep := Vec2.dot (clipPoint - planePoint) normal - pc.radiusA - pc.radiusB
    let C := clampC (conf.resolutionRate * (sep + conf.linearSlop)) conf.maxLinearCorrection
    let rA := clipPoint - positionA.linear
    let rB := clipPoint - positionB.linear
    let rnA := Vec2.cross rA normal
    let rnB := Vec2.cross rB normal
    let K := invMassA + invMassB + invIA * rnA * rnA + invIB * rnB * rnB
    let impulse := if 0 < K then -C / K else 0
    let P := Vec2.scale impulse normal
    (⟨acc.1.linear - Vec2.scale invMassA P, acc.1.angular - invIA * Vec2.cross rA P⟩,
     ⟨acc.2.1.linear + Vec2.scale invMassB P, acc.2.1.angular + invIB * Vec2.cross rB P⟩,
     some (match acc.2.2 with
           | none => sep
           | some m => min m sep))
  let res := pc.points.foldl step (positionA, positionB, none)
  ⟨res.1, res.2.1, (res.2.2).getD 0⟩

/-- The position constraint of the two dim = 2 squares at (99, 0) and
(101, 0): the manifold values asserted by the in-source unit test, unit
inverse masses and inertias, zero local centers and zero radii. -/
def squaresPC : PositionConstraintM :=
  { localNormal := ⟨1, 0⟩
    localPoint := ⟨2, 0⟩
    points := [⟨-2, 2⟩, ⟨-2, -2⟩]
    bodyA := ⟨1, 1, ⟨0, 0⟩⟩
    radiusA := 0
    bodyB := ⟨1, 1, ⟨0, 0⟩⟩
    radiusB := 0 }

/-- The single position solve of the overlapping-squares scenario with
resolution rate 0.2 and unbounded maximum linear correction. -/
def squaresSolution (u : ℚ → Vec2) : PositionSolution :=
  solvePositionConstraint u squaresPC ⟨⟨99, 0⟩, 0⟩ true ⟨⟨101, 0⟩, 0⟩ true
    ⟨1/5, LinearSlop, none⟩

end Box2D.PC

namespace Box2D.GJK

/-! GJK distance model: the control flow of Distance(proxyA, xfA, proxyB,
xfB, cache) from the Distance translation unit (its simplex seeding at
lines 100-118 and main iteration loop at lines 126-185).  The geometric
subroutines it calls (Simplex::Get, Simplex::CalcSearchDirection,
Simplex::CalcMetric, GetSupportIndex, almost_zero) are not among the
provided sources and are supplied as an oracle; simplex edges are
tracked by their support index pairs, which is all the loop control
inspects. -/

/-- Modelled from the spec: the fixed iteration cap MaxDistanceIterations
(the Settings header is not among the provided sources; 20 is the
upstream default).  The termination bound holds for the fixed value. -/
def MaxDistanceIterations : ℕ := 20

/-- A pair of support indices into proxy A and proxy B (IndexPair). -/
structure IndexPair where
  a : ℕ
  b : ℕ
deriving DecidableEq, Repr

/-- Embeds the file-local Find(pairs, key) of the Distance translation
unit (lines 29-39). -/
def find (pairs : List IndexPair) (key : IndexPair) : Bool :=
  pairs.any fun elem => decide (elem = key)

/-- Oracle for the geometric subroutines called by Distance whose code is
not among the provided sources: Simplex::Get composed with GetEdges (on
index pairs), CalcSearchDirection, the almost_zero test, the two support
index computations (with the inverse rotations folded in), and the
cache-metric acceptance test of lines 105-113. -/
structure Oracle where
  simplexGet : List IndexPair → List IndexPair
  calcSearchDirection : List IndexPair → Vec2
  almostZero : Vec2 → Bool
  supportA : Vec2 → ℕ
  supportB : Vec2 → ℕ
  metricOK : List IndexPair → Bool

/-- The four ways the Distance main loop stops: the three-edge simplex
break (lines 138-142), the near-zero search direction break (lines
160-170), the duplicate support point break (lines 176-181), and the
iteration cap of the while condition (line 128). -/
inductive Halt
  | triangle
  | zeroDirection
  | duplicate
  | cap
deriving DecidableEq, Repr

/-- The outcome of the Distance main loop: the iteration count, the
final simplex edges (as index pairs) and the reason the loop stopped. -/
structure LoopResult where
  iterations : ℕ
  edges : List IndexPair
  halt : Halt
deriving DecidableEq, Repr

/-- Embeds the main iteration loop of Distance (lines 126-185) as fuel
recursion: the fuel is the number of remaining iterations below the cap,
and the saved indices are the edges before Simplex::Get, exactly as in
the source copy at line 133. -/
def distanceLoop (o : Oracle) : ℕ → ℕ → List IndexPair → LoopResult
  | 0, iter, edges => ⟨iter, edges, Halt.cap⟩
  | fuel + 1, iter, edges =>
    let savedIndices := edges
    let edges1 := o.simplexGet edges
    if edges1.length = 3 then ⟨iter + 1, edges1, Halt.triangle⟩
    else
      let d := o.calcSearchDirection edges1
      if o.almostZero d then ⟨iter + 1, edges1, Halt.zeroDirection⟩
      else
        let ia := o.supportA d
        let ib := o.supportB d
        if find savedIndices ⟨ia, ib⟩ then ⟨iter + 1, edges1, Halt.duplicate⟩
        else distanceLoop o fuel (iter + 1) (edges1 ++ [⟨ia, ib⟩])

/-- Embeds the simplex seeding of Distance (lines 100-118): the cached
index pairs, flushed when there is more than one and the metric test
rejects them, then defaulted to the single pair (0, 0) when empty. -/
def seedEdges (o : Oracle) (cacheIndices : List IndexPair) : List IndexPair :=
  let edges1 := if 1 < cacheIndices.length ∧ o.metricOK cacheIndices = false
                then [] else cacheIndices
  if edges1.length = 0 then [⟨0, 0⟩] else edges1

/-- Embeds Distance (lines 91-190) at the control-flow level: seed the
simplex from the cache and run the main loop under the iteration cap. -/
def distance (o : Oracle) (cacheIndices : List IndexPair) : LoopResult :=
  distanceLoop o MaxDistanceIterations 0 (seedEdges o cacheIndices)

end Box2D.GJK

/-- C6: For every sweep with alpha0 < 1 and every alpha in [0, 1),
Sweep::Advance0(alpha) sets pos0 to the interpolation of (pos0, pos1) at
the normalized fraction (alpha - alpha0) / (1 - alpha0) and sets
alpha0 = alpha, leaving pos1 and localCenter unchanged. -/
theorem Box2D.sweep_advance0_spec (s : Box2D.Sweep) (alpha : ℚ)
    (h0 : s.alpha0 < 1) (h1 : 0 ≤ alpha) (h2 : alpha < 1) :
    (s.advance0 alpha).pos0 =
      Box2D.GetPosition s.pos0 s.pos1 ((alpha - s.alpha0) / (1 - s.alpha0)) ∧
    (s.advance0 alpha).alpha0 = alpha ∧
    (s.advance0 alpha).pos1 = s.pos1 ∧
    (s.advance0 alpha).localCenter = s.localCenter := by
  refine ⟨rfl, rfl, rfl, rfl⟩

/-- Witness for C6 at the concrete sweep pos0 = ((0,0),0), pos1 = ((2,4),1),
localCenter = (0,0), alpha0 = 0, advanced to alpha = 1/2. -/
theorem Box2D.sweep_advance0_spec_witness :
    ((Box2D.Sweep.mk ⟨⟨0, 0⟩, 0⟩ ⟨⟨2, 4⟩, 1⟩ ⟨0, 0⟩ 0).advance0 (1/2)).pos0 =
      Box2D.GetPosition ⟨⟨0, 0⟩, 0⟩ ⟨⟨2, 4⟩, 1⟩ (((1:ℚ)/2 - 0) / (1 - 0)) ∧
    ((Box2D.Sweep.mk ⟨⟨0, 0⟩, 0⟩ ⟨⟨2, 4⟩, 1⟩ ⟨0, 0⟩ 0).advance0 (1/2)).alpha0 = 1/2 ∧
    ((Box2D.Sweep.mk ⟨⟨0, 0⟩, 0⟩ ⟨⟨2, 4⟩, 1⟩ ⟨0, 0⟩ 0).advance0 (1/2)).pos1 = ⟨⟨2, 4⟩, 1⟩ ∧
    ((Box2D.Sweep.mk ⟨⟨0, 0⟩, 0⟩ ⟨⟨2, 4⟩, 1⟩ ⟨0, 0⟩ 0).advance0 (1/2)).localCenter = ⟨0, 0⟩ :=
  Box2D.sweep_advance0_spec _ _ (by norm_num) (by norm_num) (by norm_num)

/-- C9: A default-constructed World::Def has gravity (0, -9.8),
angularSlop = 2 pi / 180, and maxVertexRadius = 255; a default-constructed
StepConf has regVelocityIterations 8, regPositionIterations 3,
toiVelocityIterations 8, toiPositionIterations 20, maxSubSteps 48,
velocityThreshold 0.8, maxTranslation 4, maxRotation pi / 2,
regResolutionRate 0.2, toiResolutionRate 0.75, doWarmStart true,
doToi true, and minStillTimeToSleep 0.5. -/
theorem Box2D.default_config_values (pi : ℚ) :
    (Box2D.defaultWorldDef pi).gravity = ⟨0, -(98/10)⟩ ∧
    (Box2D.defaultWorldDef pi).angularSlop = pi * 2 / 180 ∧
    (Box2D.defaultWorldDef pi).maxVertexRadius = 255 ∧
    (Box2D.defaultStepConf pi).regVelocityIterations = 8 ∧
    (Box2D.defaultStepConf pi).regPositionIterations = 3 ∧
    (Box2D.defaultStepConf pi).toiVelocityIterations = 8 ∧
    (Box2D.defaultStepConf pi).toiPositionIterations = 20 ∧
    (Box2D.defaultStepConf pi).maxSubSteps = 48 ∧
    (Box2D.defaultStepConf pi).velocityThreshold = 8/10 ∧
    (Box2D.defaultStepConf pi).maxTranslation = 4 ∧
    (Box2D.defaultStepConf pi).maxRotation = pi / 2 ∧
    (Box2D.defaultStepConf pi).regResolutionRate = 2/10 ∧
    (Box2D.defaultStepConf pi).toiResolutionRate = 75/100 ∧
    (Box2D.defaultStepConf pi).doWarmStart = true ∧
    (Box2D.defaultStepConf pi).doToi = true ∧
    (Box2D.defaultStepConf pi).minStillTimeToSleep = 1/2 := by
  refine ⟨by norm_num [Box2D.defaultWorldDef], rfl, rfl, rfl, rfl, rfl, rfl, rfl,
    rfl, rfl, rfl, rfl, rfl, rfl, rfl, rfl⟩


namespace Box2D.CM

/-- Helper: setAwake leaves the contact list unchanged. -/
theorem setAwake_contacts (w : State) (b : ℕ) : (w.setAwake b).contacts = w.contacts := rfl

/-- Helper: isFor of a freshly built contact against the fields of an
existing contact equals isFor of the existing contact against the fresh
fields. -/
theorem isFor_mk_flip (fA iA fB iB : ℕ) (nf en tch : Bool) (c : Contact) :
    isFor ⟨fA, iA, fB, iB, nf, en, tch⟩ c.fixtureA c.childIndexA c.fixtureB c.childIndexB =
      isFor c fA iA fB iB := by
  simp only [isFor, decide_eq_decide]
  constructor
  · rintro (⟨h1, h2, h3, h4⟩ | ⟨h1, h2, h3, h4⟩)
    · exact Or.inl ⟨h1.symm, h2.symm, h3.symm, h4.symm⟩
    · exact Or.inr ⟨h2.symm, h1.symm, h4.symm, h3.symm⟩
  · rintro (⟨h1, h2, h3, h4⟩ | ⟨h1, h2, h3, h4⟩)
    · exact Or.inl ⟨h1.symm, h2.symm, h3.symm, h4.symm⟩
    · exact Or.inr ⟨h2.symm, h1.symm, h4.symm, h3.symm⟩

/-- Helper: when the bodies differ and some live contact is for the given
fixture/child-index pair, the duplicate scan of ContactManager::Add over
the contact edges of body B finds it. -/
theorem scan_finds_dup (w : State) (pA pB : FixtureProxy)
    (hne : w.bodyOf pA.fixture ≠ w.bodyOf pB.fixture)
    (c2 : Contact) (hmem : c2 ∈ w.contacts)
    (hfor : isFor c2 pA.fixture pA.childIndex pB.fixture pB.childIndex = true) :
    ((w.contactEdges (w.bodyOf pB.fixture)).any fun ce =>
      decide (ce.other = w.bodyOf pA.fixture) &&
        isFor ce.contact pA.fixture pA.childIndex pB.fixture pB.childIndex) = true := by
  rw [List.any_eq_true]
  rcases (decide_eq_true_iff).mp hfor with ⟨h1, h2, _, _⟩ | ⟨h1, h2, _, _⟩
  · refine ⟨⟨c2, w.bodyOf pA.fixture⟩, ?_, ?_⟩
    · exact List.mem_filterMap.mpr ⟨c2, hmem, by rw [h1, h2]; simp⟩
    · simp [hfor]
  · refine ⟨⟨c2, w.bodyOf pA.fixture⟩, ?_, ?_⟩
    · refine List.mem_filterMap.mpr ⟨c2, hmem, ?_⟩
      rw [h1, h2]
      rw [if_neg hne, if_pos rfl]
    · simp [hfor]

end Box2D.CM

/-- C1: ContactManager::Add creates no contact when the two fixtures are
on the same body or when a contact for the same fixture/child-index pair
already exists in either ordering (found via the contact edges of body
B), so pairwise distinctness of live contacts per unordered
(fixture, child-index) pair is preserved and every broad-phase pair
yields at most one live contact. -/
theorem Box2D.CM.add_at_most_one_per_pair (w : Box2D.CM.State)
    (pA pB : Box2D.CM.FixtureProxy)
    (h : Box2D.CM.pairwiseDistinct w.contacts = true) :
    Box2D.CM.pairwiseDistinct (Box2D.CM.addPair w pA pB).2.contacts = true ∧
    (w.bodyOf pA.fixture = w.bodyOf pB.fixture →
      (Box2D.CM.addPair w pA pB).1 = false ∧
      (Box2D.CM.addPair w pA pB).2.contacts = w.contacts) ∧
    (∀ c ∈ w.contacts,
      Box2D.CM.isFor c pA.fixture pA.childIndex pB.fixture pB.childIndex = true →
      (Box2D.CM.addPair w pA pB).1 = false ∧
      (Box2D.CM.addPair w pA pB).2.contacts = w.contacts) := by
  by_cases hsame : w.bodyOf pA.fixture = w.bodyOf pB.fixture
  · have he : Box2D.CM.addPair w pA pB = (false, w) := by
      simp only [Box2D.CM.addPair]
      rw [if_pos hsame]
    rw [he]
    exact ⟨h, fun _ => ⟨rfl, rfl⟩, fun _ _ _ => ⟨rfl, rfl⟩⟩
  · by_cases hscan : ((w.contactEdges (w.bodyOf pB.fixture)).any fun ce =>
        decide (ce.other = w.bodyOf pA.fixture) &&
          Box2D.CM.isFor ce.contact pA.fixture pA.childIndex pB.fixture pB.childIndex) = true
    · have he : Box2D.CM.addPair w pA pB = (false, w) := by
        simp only [Box2D.CM.addPair]
        rw [if_neg hsame, if_pos hscan]
      rw [he]
      exact ⟨h, fun _ => ⟨rfl, rfl⟩, fun _ _ _ => ⟨rfl, rfl⟩⟩
    · have hnodup : ∀ c ∈ w.contacts,
          Box2D.CM.isFor c pA.fixture pA.childIndex pB.fixture pB.childIndex = false := by
        intro c hc
        by_contra hne
        exact hscan (Box2D.CM.scan_finds_dup w pA pB hsame c hc (by
          revert hne
          simp))
      by_cases hcol : (!((w.body (w.bodyOf pB.fixture)).shouldCollide (w.bodyOf pA.fixture)
          (w.body (w.bodyOf pA.fixture)))) = true
      · have he : Box2D.CM.addPair w pA pB = (false, w) := by
          simp only [Box2D.CM.addPair]
          rw [if_neg hsame, if_neg hscan, if_pos hcol]
        rw [he]
        exact ⟨h, fun _ => ⟨rfl, rfl⟩, fun _ _ _ => ⟨rfl, rfl⟩⟩
      · by_cases hfil : (w.hasContactFilter &&
            !(Box2D.CM.filterShouldCollide (w.fixture pA.fixture).filter
              (w.fixture pB.fixture).filter)) = true
        · have he : Box2D.CM.addPair w pA pB = (false, w) := by
            simp only [Box2D.CM.addPair]
            rw [if_neg hsame, if_neg hscan, if_neg hcol, if_pos hfil]
          rw [he]
          exact ⟨h, fun _ => ⟨rfl, rfl⟩, fun _ _ _ => ⟨rfl, rfl⟩⟩
        · have he : Box2D.CM.addPair w pA pB =
              (true,
               { (if !(w.fixture pA.fixture).sensor && !(w.fixture pB.fixture).sensor
                  then (w.setAwake (w.bodyOf pA.fixture)).setAwake (w.bodyOf pB.fixture)
                  else w) with
                 contacts := ⟨pA.fixture, pA.childIndex, pB.fixture, pB.childIndex,
                              false, false, false⟩ ::
                   (if !(w.fixture pA.fixture).sensor && !(w.fixture pB.fixture).sensor
                    then (w.setAwake (w.bodyOf pA.fixture)).setAwake (w.bodyOf pB.fixture)
                    else w).contacts }) := by
            simp only [Box2D.CM.addPair]
            rw [if_neg hsame, if_neg hscan, if_neg hcol, if_neg hfil]
          have hcts : (if !(w.fixture pA.fixture).sensor && !(w.fixture pB.fixture).sensor
              then (w.setAwake (w.bodyOf pA.fixture)).setAwake (w.bodyOf pB.fixture)
              else w).contacts = w.contacts := by
            split <;> rfl
          rw [he]
          refine ⟨?_, fun hc => absurd hc hsame, fun c hc hfor => absurd hfor (by
            rw [hnodup c hc]; simp)⟩
          rw [hcts]
          simp only [Box2D.CM.pairwiseDistinct, Bool.and_eq_true, List.all_eq_true]
          refine ⟨fun c2 hc2 => ?_, h⟩
          rw [Box2D.CM.isFor_mk_flip, hnodup c2 hc2]
          rfl

/-- Witness for C1: in the two-dynamic-body world already holding the
contact (fixture 0, child 0, fixture 1, child 0), adding the broad-phase
pair in the swapped ordering creates nothing and distinctness is
preserved. -/
theorem Box2D.CM.add_at_most_one_per_pair_witness :
    Box2D.CM.pairwiseDistinct
      (Box2D.CM.addPair Box2D.CM.dupState ⟨1, 0⟩ ⟨0, 0⟩).2.contacts = true ∧
    (Box2D.CM.addPair Box2D.CM.dupState ⟨1, 0⟩ ⟨0, 0⟩).1 = false ∧
    (Box2D.CM.addPair Box2D.CM.dupState ⟨1, 0⟩ ⟨0, 0⟩).2.contacts =
      Box2D.CM.dupState.contacts :=
  ⟨(Box2D.CM.add_at_most_one_per_pair Box2D.CM.dupState ⟨1, 0⟩ ⟨0, 0⟩ (by decide)).1,
   (Box2D.CM.add_at_most_one_per_pair Box2D.CM.dupState ⟨1, 0⟩ ⟨0, 0⟩ (by decide)).2.2
     ⟨0, 0, 1, 0, false, false, false⟩ (by decide) (by decide)⟩

/-- C10: A contact is only created when at least one body is accelerable:
Body::ShouldCollide returns false whenever neither body is accelerable,
so static-static, kinematic-kinematic and kinematic-static pairs are all
rejected by ContactManager::Add. -/
theorem Box2D.CM.add_requires_accelerable (w : Box2D.CM.State)
    (pA pB : Box2D.CM.FixtureProxy)
    (hA : (w.body (w.bodyOf pA.fixture)).isAccelerable = false)
    (hB : (w.body (w.bodyOf pB.fixture)).isAccelerable = false) :
    (w.body (w.bodyOf pB.fixture)).shouldCollide (w.bodyOf pA.fixture)
      (w.body (w.bodyOf pA.fixture)) = false ∧
    (Box2D.CM.addPair w pA pB).1 = false ∧
    (Box2D.CM.addPair w pA pB).2.contacts = w.contacts := by
  have hsc : (w.body (w.bodyOf pB.fixture)).shouldCollide (w.bodyOf pA.fixture)
      (w.body (w.bodyOf pA.fixture)) = false := by
    unfold Box2D.CM.BodyB.shouldCollide
    rw [if_pos (by rw [hA, hB]; rfl)]
  refine ⟨hsc, ?_⟩
  by_cases hsame : w.bodyOf pA.fixture = w.bodyOf pB.fixture
  · have he : Box2D.CM.addPair w pA pB = (false, w) := by
      simp only [Box2D.CM.addPair]
      rw [if_pos hsame]
    rw [he]
    exact ⟨rfl, rfl⟩
  · by_cases hscan : ((w.contactEdges (w.bodyOf pB.fixture)).any fun ce =>
        decide (ce.other = w.bodyOf pA.fixture) &&
          Box2D.CM.isFor ce.contact pA.fixture pA.childIndex pB.fixture pB.childIndex) = true
    · have he : Box2D.CM.addPair w pA pB = (false, w) := by
        simp only [Box2D.CM.addPair]
        rw [if_neg hsame, if_pos hscan]
      rw [he]
      exact ⟨rfl, rfl⟩
    · have he : Box2D.CM.addPair w pA pB = (false, w) := by
        simp only [Box2D.CM.addPair]
        rw [if_neg hsame, if_neg hscan, if_pos (by rw [hsc]; rfl)]
      rw [he]
      exact ⟨rfl, rfl⟩

/-- Witness for C10 at the kinematic-static two-body world: the pair of
fixture 0 (kinematic body) and fixture 1 (static body) is rejected. -/
theorem Box2D.CM.add_requires_accelerable_witness :
    (Box2D.CM.kinStaticState.body (Box2D.CM.kinStaticState.bodyOf 1)).shouldCollide
      (Box2D.CM.kinStaticState.bodyOf 0) (Box2D.CM.kinStaticState.body
        (Box2D.CM.kinStaticState.bodyOf 0)) = false ∧
    (Box2D.CM.addPair Box2D.CM.kinStaticState ⟨0, 0⟩ ⟨1, 0⟩).1 = false ∧
    (Box2D.CM.addPair Box2D.CM.kinStaticState ⟨0, 0⟩ ⟨1, 0⟩).2.contacts =
      Box2D.CM.kinStaticState.contacts :=
  Box2D.CM.add_requires_accelerable Box2D.CM.kinStaticState ⟨0, 0⟩ ⟨1, 0⟩
    (by decide) (by decide)

/-- Helper: a surviving re-filter step preserves the fixture and
child-index fields of the contact. -/
theorem Box2D.CM.refilter_fields (w : Box2D.CM.State) (a c1 : Box2D.CM.Contact)
    (h : Box2D.CM.refilter w a = some c1) :
    c1.fixtureA = a.fixtureA ∧ c1.childIndexA = a.childIndexA ∧
    c1.fixtureB = a.fixtureB ∧ c1.childIndexB = a.childIndexB := by
  unfold Box2D.CM.refilter at h
  split at h
  · split at h
    · exact absurd h (by simp)
    · split at h
      · exact absurd h (by simp)
      · injection h with h1
        subst h1
        exact ⟨rfl, rfl, rfl, rfl⟩
  · injection h with h1
    subst h1
    exact ⟨rfl, rfl, rfl, rfl⟩

/-- Helper: a contact surviving the per-contact Collide step keeps its
fixture fields and either its proxies overlap or neither body is
collidable (awake and speedable). -/
theorem Box2D.CM.processContact_some (w : Box2D.CM.State) (a c : Box2D.CM.Contact)
    (h : Box2D.CM.processContact w a = some c) :
    c.fixtureA = a.fixtureA ∧ c.childIndexA = a.childIndexA ∧
    c.fixtureB = a.fixtureB ∧ c.childIndexB = a.childIndexB ∧
    (Box2D.CM.testOverlap (w.proxyAABB a.fixtureA a.childIndexA)
        (w.proxyAABB a.fixtureB a.childIndexB) = true ∨
      ((w.body (w.bodyOf a.fixtureA)).isCollidable = false ∧
       (w.body (w.bodyOf a.fixtureB)).isCollidable = false)) := by
  unfold Box2D.CM.processContact at h
  split at h
  · exact absurd h (by simp)
  · rename_i c1 heq
    obtain ⟨f1, f2, f3, f4⟩ := Box2D.CM.refilter_fields w a c1 heq
    split at h
    · rename_i hcond
      injection h with h1
      subst h1
      simp only [Bool.and_eq_true, Bool.not_eq_true'] at hcond
      exact ⟨f1, f2, f3, f4, Or.inr ⟨hcond.1, hcond.2⟩⟩
    · split at h
      · exact absurd h (by simp)
      · rename_i hov
        injection h with h1
        subst h1
        refine ⟨f1, f2, f3, f4, Or.inl ?_⟩
        revert hov
        cases Box2D.CM.testOverlap (w.proxyAABB a.fixtureA a.childIndexA)
          (w.proxyAABB a.fixtureB a.childIndexB) <;> simp

/-- C2 (amended): after ContactManager::Collide, every contact still in
the world contact list either has overlapping broad-phase proxies or has
neither body awake-and-speedable (such contacts are skipped by Collide
without an overlap check); contacts with an awake-and-speedable body
whose proxies no longer overlap are destroyed. -/
theorem Box2D.CM.collide_overlap_or_not_collidable (w : Box2D.CM.State)
    (c : Box2D.CM.Contact) (hmem : c ∈ (Box2D.CM.collide w).contacts) :
    Box2D.CM.testOverlap (w.proxyAABB c.fixtureA c.childIndexA)
        (w.proxyAABB c.fixtureB c.childIndexB) = true ∨
      ((w.body (w.bodyOf c.fixtureA)).isCollidable = false ∧
       (w.body (w.bodyOf c.fixtureB)).isCollidable = false) := by
  obtain ⟨a, ha, hpc⟩ := List.mem_filterMap.mp hmem
  obtain ⟨f1, f2, f3, f4, hdisj⟩ := Box2D.CM.processContact_some w a c hpc
  rw [f1, f2, f3, f4]
  exact hdisj

/-- Witness for C2 (amended) at the sleeping-bodies world: the surviving
contact satisfies the disjunction. -/
theorem Box2D.CM.collide_overlap_or_not_collidable_witness :
    Box2D.CM.testOverlap (Box2D.CM.sleepyState.proxyAABB 0 0)
        (Box2D.CM.sleepyState.proxyAABB 1 0) = true ∨
      ((Box2D.CM.sleepyState.body (Box2D.CM.sleepyState.bodyOf 0)).isCollidable = false ∧
       (Box2D.CM.sleepyState.body (Box2D.CM.sleepyState.bodyOf 1)).isCollidable = false) :=
  Box2D.CM.collide_overlap_or_not_collidable Box2D.CM.sleepyState
    ⟨0, 0, 1, 0, false, false, false⟩ (by decide)

/-- Helper: componentwise form of vector subtraction. -/
theorem Box2D.Vec2.sub_def (a b : Box2D.Vec2) :
    a - b = ⟨a.x - b.x, a.y - b.y⟩ := rfl

/-- Counterexample for C2 as stated: in the sleeping-bodies world the
contact survives Collide even though its broad-phase proxies do not
overlap, because neither body is awake-and-speedable. -/
theorem Box2D.CM.collide_keeps_nonoverlapping_contact :
    (Box2D.CM.collide Box2D.CM.sleepyState).contacts =
      [⟨0, 0, 1, 0, false, false, false⟩] ∧
    Box2D.CM.testOverlap (Box2D.CM.sleepyState.proxyAABB 0 0)
      (Box2D.CM.sleepyState.proxyAABB 1 0) = false := by
  refine ⟨by decide, ?_⟩
  norm_num [Box2D.CM.testOverlap, Box2D.CM.sleepyState, Box2D.CM.State.proxyAABB,
    Box2D.CM.State.fixture, Box2D.CM.defaultFixture, List.getD, Box2D.Vec2.sub_def]

/-- C3: For every body whose world is locked, Body::SetType,
Body::DestroyFixture, Body::DestroyFixtures and Body::SetTransform
return immediately as no-ops, leaving the fixtures, type, transform and
all other world state unchanged. -/
theorem Box2D.BodyOps.locked_mutations_are_noops (w : Box2D.BodyOps.WorldB)
    (t : Box2D.CM.BodyType) (fid : ℕ) (rm : Bool) (p : Box2D.Vec2) (a : ℚ)
    (h : w.locked = true) :
    Box2D.BodyOps.setType w t = w ∧
    Box2D.BodyOps.destroyFixture w fid rm = w ∧
    Box2D.BodyOps.destroyFixtures w = w ∧
    Box2D.BodyOps.setTransform w p a = w := by
  refine ⟨?_, ?_, ?_, ?_⟩ <;>
    simp [Box2D.BodyOps.setType, Box2D.BodyOps.destroyFixture,
      Box2D.BodyOps.destroyFixtures, Box2D.BodyOps.setTransform, h]

/-- Witness for C3 at the concrete locked world: retyping to static,
destroying fixture 0, destroying all fixtures and setting the transform
to ((3,4), 1) all leave the world unchanged. -/
theorem Box2D.BodyOps.locked_mutations_are_noops_witness :
    Box2D.BodyOps.setType Box2D.BodyOps.lockedWorld Box2D.CM.BodyType.Static =
      Box2D.BodyOps.lockedWorld ∧
    Box2D.BodyOps.destroyFixture Box2D.BodyOps.lockedWorld 0 true =
      Box2D.BodyOps.lockedWorld ∧
    Box2D.BodyOps.destroyFixtures Box2D.BodyOps.lockedWorld =
      Box2D.BodyOps.lockedWorld ∧
    Box2D.BodyOps.setTransform Box2D.BodyOps.lockedWorld ⟨3, 4⟩ 1 =
      Box2D.BodyOps.lockedWorld :=
  Box2D.BodyOps.locked_mutations_are_noops Box2D.BodyOps.lockedWorld
    Box2D.CM.BodyType.Static 0 true ⟨3, 4⟩ 1 rfl

/-- Helper: shape validity of a non-null shape is exactly the vertex
radius being inside the world bounds. -/
theorem Box2D.BodyOps.shapeIsValid_some (s : Box2D.BodyOps.Shape)
    (minVR maxVR : Box2D.BodyOps.Flt) :
    Box2D.BodyOps.shapeIsValid (some s) minVR maxVR =
      (Box2D.BodyOps.Flt.le minVR s.vertexRadius &&
       Box2D.BodyOps.Flt.le s.vertexRadius maxVR) := by
  unfold Box2D.BodyOps.shapeIsValid
  cases h1 : Box2D.BodyOps.Flt.le minVR s.vertexRadius <;>
    cases h2 : Box2D.BodyOps.Flt.le s.vertexRadius maxVR <;> simp [h1, h2]

/-- Helper: fixture definition validity is exactly the conjunction of its
four comparisons. -/
theorem Box2D.BodyOps.defIsValid_char (fd : Box2D.BodyOps.FixtureDef) :
    Box2D.BodyOps.defIsValid fd =
      (Box2D.BodyOps.Flt.le (Box2D.BodyOps.Flt.num 0) fd.density &&
       Box2D.BodyOps.Flt.le (Box2D.BodyOps.Flt.num 0) fd.friction &&
       Box2D.BodyOps.Flt.lt fd.restitution Box2D.BodyOps.Flt.posInf &&
       Box2D.BodyOps.Flt.lt Box2D.BodyOps.Flt.negInf fd.restitution) := by
  unfold Box2D.BodyOps.defIsValid
  cases h1 : Box2D.BodyOps.Flt.le (Box2D.BodyOps.Flt.num 0) fd.density <;>
    cases h2 : Box2D.BodyOps.Flt.le (Box2D.BodyOps.Flt.num 0) fd.friction <;>
    cases h3 : Box2D.BodyOps.Flt.lt fd.restitution Box2D.BodyOps.Flt.posInf <;>
    cases h4 : Box2D.BodyOps.Flt.lt Box2D.BodyOps.Flt.negInf fd.restitution <;>
    simp [h1, h2, h3, h4]

/-- Helper: resetting mass data does not change the fixture list. -/
theorem Box2D.BodyOps.resetMassData_fixtures (w : Box2D.BodyOps.WorldB) :
    (Box2D.BodyOps.resetMassData w).body.fixtures = w.body.fixtures := by
  by_cases h : w.body.type ≠ Box2D.CM.BodyType.Dynamic <;>
    simp [Box2D.BodyOps.resetMassData, h]

/-- C4: Body::CreateFixture returns null exactly when the world is
locked, or the shape is null or has a vertex radius outside
[GetMinVertexRadius, GetMaxVertexRadius], or the fixture definition
violates density at least 0, friction at least 0, or finite restitution;
in every other case it returns a fixture attached to the body. -/
theorem Box2D.BodyOps.createFixture_null_iff (w : Box2D.BodyOps.WorldB)
    (shape : Option Box2D.BodyOps.Shape) (fd : Box2D.BodyOps.FixtureDef) (rm : Bool) :
    ((Box2D.BodyOps.createFixture w shape fd rm).1 = none ↔
      w.locked = true ∨ shape = none ∨
      (∃ s, shape = some s ∧
        (Box2D.BodyOps.Flt.le w.minVertexRadius s.vertexRadius = false ∨
         Box2D.BodyOps.Flt.le s.vertexRadius w.maxVertexRadius = false)) ∨
      Box2D.BodyOps.Flt.le (Box2D.BodyOps.Flt.num 0) fd.density = false ∨
      Box2D.BodyOps.Flt.le (Box2D.BodyOps.Flt.num 0) fd.friction = false ∨
      Box2D.BodyOps.Flt.lt fd.restitution Box2D.BodyOps.Flt.posInf = false ∨
      Box2D.BodyOps.Flt.lt Box2D.BodyOps.Flt.negInf fd.restitution = false) ∧
    (∀ f, (Box2D.BodyOps.createFixture w shape fd rm).1 = some f →
      f ∈ (Box2D.BodyOps.createFixture w shape fd rm).2.body.fixtures) := by
  cases shape with
  | none =>
    have he : Box2D.BodyOps.createFixture w none fd rm = (none, w) := by
      simp [Box2D.BodyOps.createFixture, Box2D.BodyOps.shapeIsValid]
    rw [he]
    exact ⟨⟨fun _ => Or.inr (Or.inl rfl), fun _ => rfl⟩, fun f hf => absurd hf (by simp)⟩
  | some s =>
    by_cases hv : (!(Box2D.BodyOps.shapeIsValid (some s) w.minVertexRadius w.maxVertexRadius) ||
        !(Box2D.BodyOps.defIsValid fd)) = true
    · have he : Box2D.BodyOps.createFixture w (some s) fd rm = (none, w) := by
        simp only [Box2D.BodyOps.createFixture]
        rw [if_pos hv]
      have hv2 : Box2D.BodyOps.shapeIsValid (some s) w.minVertexRadius w.maxVertexRadius = false ∨
          Box2D.BodyOps.defIsValid fd = false := by simpa using hv
      have hr : w.locked = true ∨ (some s : Option Box2D.BodyOps.Shape) = none ∨
          (∃ s2, (some s : Option Box2D.BodyOps.Shape) = some s2 ∧
            (Box2D.BodyOps.Flt.le w.minVertexRadius s2.vertexRadius = false ∨
             Box2D.BodyOps.Flt.le s2.vertexRadius w.maxVertexRadius = false)) ∨
          Box2D.BodyOps.Flt.le (Box2D.BodyOps.Flt.num 0) fd.density = false ∨
          Box2D.BodyOps.Flt.le (Box2D.BodyOps.Flt.num 0) fd.friction = false ∨
          Box2D.BodyOps.Flt.lt fd.restitution Box2D.BodyOps.Flt.posInf = false ∨
          Box2D.BodyOps.Flt.lt Box2D.BodyOps.Flt.negInf fd.restitution = false := by
        rcases hv2 with h | h
        · rw [Box2D.BodyOps.shapeIsValid_some] at h
          have h2 : Box2D.BodyOps.Flt.le w.minVertexRadius s.vertexRadius = false ∨
              Box2D.BodyOps.Flt.le s.vertexRadius w.maxVertexRadius = false := by
            revert h
            cases Box2D.BodyOps.Flt.le w.minVertexRadius s.vertexRadius <;>
              cases Box2D.BodyOps.Flt.le s.vertexRadius w.maxVertexRadius <;> simp
          exact Or.inr (Or.inr (Or.inl ⟨s, rfl, h2⟩))
        · rw [Box2D.BodyOps.defIsValid_char] at h
          have h2 : Box2D.BodyOps.Flt.le (Box2D.BodyOps.Flt.num 0) fd.density = false ∨
              Box2D.BodyOps.Flt.le (Box2D.BodyOps.Flt.num 0) fd.friction = false ∨
              Box2D.BodyOps.Flt.lt fd.restitution Box2D.BodyOps.Flt.posInf = false ∨
              Box2D.BodyOps.Flt.lt Box2D.BodyOps.Flt.negInf fd.restitution = false := by
            revert h
            cases Box2D.BodyOps.Flt.le (Box2D.BodyOps.Flt.num 0) fd.density <;>
              cases Box2D.BodyOps.Flt.le (Box2D.BodyOps.Flt.num 0) fd.friction <;>
              cases Box2D.BodyOps.Flt.lt fd.restitution Box2D.BodyOps.Flt.posInf <;>
              cases Box2D.BodyOps.Flt.lt Box2D.BodyOps.Flt.negInf fd.restitution <;> simp
          rcases h2 with h2 | h2 | h2 | h2
          · exact Or.inr (Or.inr (Or.inr (Or.inl h2)))
          · exact Or.inr (Or.inr (Or.inr (Or.inr (Or.inl h2))))
          · exact Or.inr (Or.inr (Or.inr (Or.inr (Or.inr (Or.inl h2)))))
          · exact Or.inr (Or.inr (Or.inr (Or.inr (Or.inr (Or.inr h2)))))
      rw [he]
      exact ⟨⟨fun _ => hr, fun _ => rfl⟩, fun f hf => absurd hf (by simp)⟩
    · have hsv : Box2D.BodyOps.shapeIsValid (some s) w.minVertexRadius w.maxVertexRadius = true ∧
          Box2D.BodyOps.defIsValid fd = true := by simpa using hv
      by_cases hl : w.locked = true
      · have he : Box2D.BodyOps.createFixture w (some s) fd rm = (none, w) := by
          simp only [Box2D.BodyOps.createFixture]
          rw [if_neg hv, if_pos hl]
        rw [he]
        exact ⟨⟨fun _ => Or.inl hl, fun _ => rfl⟩, fun f hf => absurd hf (by simp)⟩
      · have hf1 : (Box2D.BodyOps.createFixture w (some s) fd rm).1 =
            some ⟨w.nextFixtureId, s, fd.density, fd.friction, fd.restitution, fd.isSensor⟩ := by
          simp only [Box2D.BodyOps.createFixture]
          rw [if_neg hv, if_neg hl]
        have hfx : (Box2D.BodyOps.createFixture w (some s) fd rm).2.body.fixtures =
            (⟨w.nextFixtureId, s, fd.density, fd.friction, fd.restitution, fd.isSensor⟩ :
              Box2D.BodyOps.Fixture) :: w.body.fixtures := by
          simp only [Box2D.BodyOps.createFixture]
          rw [if_neg hv, if_neg hl]
          show (if Box2D.BodyOps.Flt.lt (Box2D.BodyOps.Flt.num 0) fd.density = true
              then _ else _ : Box2D.BodyOps.WorldB).body.fixtures = _
          split
          · split
            · rw [Box2D.BodyOps.resetMassData_fixtures]
            · rfl
          · rfl
        constructor
        · rw [hf1]
          constructor
          · intro hx
            exact absurd hx (by simp)
          · intro hrhs
            exfalso
            rcases hrhs with hx | hx | ⟨s2, hs2, hx⟩ | hx | hx | hx | hx
            · exact hl hx
            · exact absurd hx (by simp)
            · injection hs2 with hss
              subst hss
              have hsv1 := hsv.1
              rw [Box2D.BodyOps.shapeIsValid_some, Bool.and_eq_true] at hsv1
              rcases hx with hx | hx
              · rw [hsv1.1] at hx
                cases hx
              · rw [hsv1.2] at hx
                cases hx
            · have hsv2 := hsv.2
              rw [Box2D.BodyOps.defIsValid_char, Bool.and_eq_true, Bool.and_eq_true,
                Bool.and_eq_true] at hsv2
              rw [hsv2.1.1.1] at hx
              cases hx
            · have hsv2 := hsv.2
              rw [Box2D.BodyOps.defIsValid_char, Bool.and_eq_true, Bool.and_eq_true,
                Bool.and_eq_true] at hsv2
              rw [hsv2.1.1.2] at hx
              cases hx
            · have hsv2 := hsv.2
              rw [Box2D.BodyOps.defIsValid_char, Bool.and_eq_true, Bool.and_eq_true,
                Bool.and_eq_true] at hsv2
              rw [hsv2.1.2] at hx
              cases hx
            · have hsv2 := hsv.2
              rw [Box2D.BodyOps.defIsValid_char, Bool.and_eq_true, Bool.and_eq_true,
                Bool.and_eq_true] at hsv2
              rw [hsv2.2] at hx
              cases hx
        · intro f hf
          rw [hf1] at hf
          injection hf with hff
          rw [hfx, ← hff]
          exact List.mem_cons_self _ _

/-- Witness for C4: creating a fixture from a valid unit-radius shape and
a valid definition in the unlocked world attaches it to the body. -/
theorem Box2D.BodyOps.createFixture_null_iff_witness :
    (⟨1, ⟨Box2D.BodyOps.Flt.num 1⟩, Box2D.BodyOps.Flt.num 1, Box2D.BodyOps.Flt.num 1,
        Box2D.BodyOps.Flt.num 0, false⟩ : Box2D.BodyOps.Fixture) ∈
      (Box2D.BodyOps.createFixture Box2D.BodyOps.unlockedWorld
        (some ⟨Box2D.BodyOps.Flt.num 1⟩)
        ⟨Box2D.BodyOps.Flt.num 1, Box2D.BodyOps.Flt.num 1, Box2D.BodyOps.Flt.num 0, false⟩
        false).2.body.fixtures :=
  (Box2D.BodyOps.createFixture_null_iff Box2D.BodyOps.unlockedWorld
    (some ⟨Box2D.BodyOps.Flt.num 1⟩)
    ⟨Box2D.BodyOps.Flt.num 1, Box2D.BodyOps.Flt.num 1, Box2D.BodyOps.Flt.num 0, false⟩
    false).2
    ⟨1, ⟨Box2D.BodyOps.Flt.num 1⟩, Box2D.BodyOps.Flt.num 1, Box2D.BodyOps.Flt.num 1,
      Box2D.BodyOps.Flt.num 0, false⟩ (by decide)

/-- Helper: componentwise form of vector addition. -/
theorem Box2D.Vec2.add_def (a b : Box2D.Vec2) :
    a + b = ⟨a.x + b.x, a.y + b.y⟩ := rfl

/-- Counterexample for C7 as stated: for the unit square (hx = hy = 1) at
density 1, the modelled polygon mass data gives a rotational inertia of
8/3, not the (8 + 8)/12 = 4/3 the claim formula yields; the claimed
formula is half of what the code (as pinned by the in-source unit test)
computes. -/
theorem Box2D.Mass.rectangle_inertia_counterexample :
    (Box2D.Mass.polygonMassData 1 (Box2D.Mass.rectVertices 1 1)).I = 8/3 ∧
    ¬((Box2D.Mass.polygonMassData 1 (Box2D.Mass.rectVertices 1 1)).I =
      1 * (8 * 1 ^ 3 * 1 + 8 * 1 * 1 ^ 3) / 12) := by
  constructor <;>
    norm_num [Box2D.Mass.polygonMassData, Box2D.Mass.rectVertices, Box2D.Vec2.add_def,
      Box2D.Vec2.sub_def, Box2D.Vec2.scale, Box2D.Vec2.dot, Box2D.Vec2.cross,
      Box2D.Vec2.zero, List.range_succ]

/-- C7 (amended): for a rectangle polygon of half-widths (hx, hy)
centered at the origin with zero vertex radius, mass data at density rho
yields mass = 4 rho hx hy, centroid at the origin, and rotational
inertia I = rho (16 hx^3 hy + 16 hx hy^3) / 12 (twice the value stated
by the claim), matching the in-source unit test expectation of
90.666664 times density for hx = 4, hy = 1. -/
theorem Box2D.Mass.rectangle_mass_data (rho hx hy : ℚ) :
    (Box2D.Mass.polygonMassData rho (Box2D.Mass.rectVertices hx hy)).mass =
      4 * rho * hx * hy ∧
    (Box2D.Mass.polygonMassData rho (Box2D.Mass.rectVertices hx hy)).I =
      rho * (16 * hx ^ 3 * hy + 16 * hx * hy ^ 3) / 12 := by
  constructor <;>
    · simp only [Box2D.Mass.polygonMassData, Box2D.Mass.rectVertices, Box2D.Vec2.add_def,
        Box2D.Vec2.sub_def, Box2D.Vec2.scale, Box2D.Vec2.dot, Box2D.Vec2.cross,
        Box2D.Vec2.zero, List.range_succ, List.range_zero, List.foldl, List.getD,
        List.get?, List.length_cons, List.length_nil]
      norm_num
      ring

/-- C8: For the two dim = 2 squares A centered at (99, 0) and B at
(101, 0), a single position-constraint solve with resolutionRate = 0.2
and unbounded maxLinearCorrection moves A strictly left changing only
its x coordinate, moves B strictly right changing only its x coordinate,
and reports minimum separation -2. -/
theorem Box2D.PC.overlapping_squares_solve (u : ℚ → Box2D.Vec2)
    (hu : u 0 = ⟨1, 0⟩) :
    (Box2D.PC.squaresSolution u).min_separation = -2 ∧
    (Box2D.PC.squaresSolution u).pos_a.linear.x < 99 ∧
    (Box2D.PC.squaresSolution u).pos_a.linear.y = 0 ∧
    (Box2D.PC.squaresSolution u).pos_a.angular = 0 ∧
    (Box2D.PC.squaresSolution u).pos_b.linear.x > 101 ∧
    (Box2D.PC.squaresSolution u).pos_b.linear.y = 0 ∧
    (Box2D.PC.squaresSolution u).pos_b.angular = 0 := by
  refine ⟨?_, ?_, ?_, ?_, ?_, ?_, ?_⟩ <;>
    norm_num [Box2D.PC.squaresSolution, Box2D.PC.solvePositionConstraint,
      Box2D.PC.squaresPC, Box2D.PC.getTransformation, Box2D.PC.clampC,
      Box2D.PC.LinearSlop, Box2D.Rotate, Box2D.Transform, Box2D.Vec2.add_def,
      Box2D.Vec2.sub_def, Box2D.Vec2.scale, Box2D.Vec2.dot, Box2D.Vec2.cross,
      List.foldl, hu]

/-- Witness for C8 at the concrete rotation oracle mapping every angle
to the unit vector (1, 0) (exact at the zero angles this scenario
uses). -/
theorem Box2D.PC.overlapping_squares_solve_witness :
    (Box2D.PC.squaresSolution fun _ => ⟨1, 0⟩).min_separation = -2 ∧
    (Box2D.PC.squaresSolution fun _ => ⟨1, 0⟩).pos_a.linear.x < 99 ∧
    (Box2D.PC.squaresSolution fun _ => ⟨1, 0⟩).pos_a.linear.y = 0 ∧
    (Box2D.PC.squaresSolution fun _ => ⟨1, 0⟩).pos_a.angular = 0 ∧
    (Box2D.PC.squaresSolution fun _ => ⟨1, 0⟩).pos_b.linear.x > 101 ∧
    (Box2D.PC.squaresSolution fun _ => ⟨1, 0⟩).pos_b.linear.y = 0 ∧
    (Box2D.PC.squaresSolution fun _ => ⟨1, 0⟩).pos_b.angular = 0 :=
  Box2D.PC.overlapping_squares_solve (fun _ => ⟨1, 0⟩) rfl

/-- Helper: the Distance main loop performs at most as many iterations
as it has fuel, and stops with the cap reason exactly by exhausting the
fuel. -/
theorem Box2D.GJK.distanceLoop_bound (o : Box2D.GJK.Oracle) (fuel : ℕ) :
    ∀ (iter : ℕ) (edges : List Box2D.GJK.IndexPair),
      (Box2D.GJK.distanceLoop o fuel iter edges).iterations ≤ iter + fuel ∧
      ((Box2D.GJK.distanceLoop o fuel iter edges).halt ≠ Box2D.GJK.Halt.cap ∨
        (Box2D.GJK.distanceLoop o fuel iter edges).iterations = iter + fuel) := by
  induction fuel with
  | zero =>
    intro iter edges
    exact ⟨by simp [Box2D.GJK.distanceLoop], Or.inr (by simp [Box2D.GJK.distanceLoop])⟩
  | succ n ih =>
    intro iter edges
    simp only [Box2D.GJK.distanceLoop]
    split
    · exact ⟨by simp, Or.inl (by simp)⟩
    · split
      · exact ⟨by simp, Or.inl (by simp)⟩
      · split
        · exact ⟨by simp, Or.inl (by simp)⟩
        · have h := ih (iter + 1) (o.simplexGet edges ++
            [⟨o.supportA (o.calcSearchDirection (o.simplexGet edges)),
              o.supportB (o.calcSearchDirection (o.simplexGet edges))⟩])
          constructor
          · have h1 := h.1
            omega
          · rcases h.2 with h2 | h2
            · exact Or.inl h2
            · exact Or.inr (by omega)

/-- C5: the Distance algorithm seeds its simplex from the cache and then
iterates; the loop exits only on a duplicate support index pair, a
three-edge simplex, a nearly-zero search direction, or on reaching the
fixed cap MaxDistanceIterations, hence it terminates within that cap for
every oracle behavior (in particular, stopping for the cap reason means
exactly MaxDistanceIterations iterations ran). -/
theorem Box2D.GJK.distance_within_cap (o : Box2D.GJK.Oracle)
    (cacheIndices : List Box2D.GJK.IndexPair) :
    (Box2D.GJK.distance o cacheIndices).iterations ≤ Box2D.GJK.MaxDistanceIterations ∧
    ((Box2D.GJK.distance o cacheIndices).halt ≠ Box2D.GJK.Halt.cap ∨
      (Box2D.GJK.distance o cacheIndices).iterations = Box2D.GJK.MaxDistanceIterations) ∧
    ((Box2D.GJK.distance o cacheIndices).halt = Box2D.GJK.Halt.duplicate ∨
     (Box2D.GJK.distance o cacheIndices).halt = Box2D.GJK.Halt.triangle ∨
     (Box2D.GJK.distance o cacheIndices).halt = Box2D.GJK.Halt.zeroDirection ∨
     (Box2D.GJK.distance o cacheIndices).halt = Box2D.GJK.Halt.cap) := by
  have h := Box2D.GJK.distanceLoop_bound o Box2D.GJK.MaxDistanceIterations 0
    (Box2D.GJK.seedEdges o cacheIndices)
  refine ⟨by simpa using h.1, by simpa using h.2, ?_⟩
  cases hh : (Box2D.GJK.distance o cacheIndices).halt
  · exact Or.inr (Or.inl rfl)
  · exact Or.inr (Or.inr (Or.inl rfl))
  · exact Or.inl rfl
  · exact Or.inr (Or.inr (Or.inr rfl))

/-- Anchor: at the inputs of the in-source unit test
(MassData.GetForZeroVertexRadiusRectangle: half-widths 4 and 1, density
2.1) the modelled polygon mass data reproduces the expected values
mass = 33.6 and I = 190.4 (the test checks I against 90.666664 times the
density). -/
theorem Box2D.Mass.rectangle_mass_data_matches_unit_test :
    (Box2D.Mass.polygonMassData (21/10) (Box2D.Mass.rectVertices 4 1)).mass = 168/5 ∧
    (Box2D.Mass.polygonMassData (21/10) (Box2D.Mass.rectVertices 4 1)).I = 952/5 := by
  constructor <;>
    norm_num [Box2D.Mass.polygonMassData, Box2D.Mass.rectVertices, Box2D.Vec2.add_def,
      Box2D.Vec2.sub_def, Box2D.Vec2.scale, Box2D.Vec2.dot, Box2D.Vec2.cross,
      Box2D.Vec2.zero, List.range_succ]
